import Mathlib

/-!
Verification development for the HyFocus focus-enforcement plugin.

The definitions below are a shallow embedding of the plugin's core
components, translated directly from the C++ sources:

* `FocusTimer`        — FocusTimer.cpp / FocusTimer.hpp (the Pomodoro timer).
  Wall-clock instants are modelled as `Int` seconds; each operation that
  reads the clock takes the current instant `now` as an explicit argument.
* `WorkspaceEnforcer` — WorkspaceEnforcer.cpp / .hpp (the workspace ACL).
  The process-wide atomics `g_fe_is_session_active` / `g_fe_is_break_time`
  read by `shouldBlockSwitch` are modelled by an explicit `FeGlobals` record.
* `FocusSys`          — the composition of the enforcer with the globals and
  the `setLastValidWorkspace` call sites in eventhooks.cpp
  (`hkChangeworkspace`, `onWorkspaceChange`) and dispatchers
  (`dispatch_startSession`).
* `WindowShake`       — WindowShake.cpp / .hpp (the shake animator).  The
  real-valued decaying-sinusoid offset is kept abstract (a function
  parameter), since the claims checked here do not depend on its value.
* `ExitChallenge`     — ExitChallenge.cpp / .hpp (the exit challenge engine).
  The `std::mt19937` draws used by the math problem are passed explicitly.

C++ exceptions are modelled with `Except CppException`; a value
`CppException.stdException msg` stands for a thrown object derived from
`std::exception`, and `CppException.nonStdException` for any other thrown
value.
-/

namespace HyFocus

/-! ### FocusTimer (FocusTimer.cpp) -/

/-- Timer states, from the `TimerState` enum in FocusTimer.hpp. -/
inductive TimerState where
  | Idle
  | Working
  | Break
  | Paused
  | Completed
deriving DecidableEq, Repr

/-- State of a `FocusTimer` object.  Durations and time points are in
seconds (the C++ stores `std::chrono` durations; all arithmetic done on
them in FocusTimer.cpp is via `duration_cast<seconds>`).  Defaults mirror
the member initializers in FocusTimer.hpp. -/
structure FocusTimer where
  totalDuration : Int := 120 * 60
  workInterval : Int := 25 * 60
  breakInterval : Int := 5 * 60
  state : TimerState := TimerState.Idle
  sessionStart : Int := 0
  intervalStart : Int := 0
  pausedRemaining : Int := 0
  completedWorkIntervals : Int := 0
  shouldStop : Bool := false
deriving DecidableEq, Repr

/-- `FocusTimer::configure` — clamps the three durations and stores them. -/
def FocusTimer.configure (totalMinutes workMinutes breakMinutes : Int)
    (t : FocusTimer) : FocusTimer :=
  let tm := if totalMinutes < 1 then 1 else totalMinutes
  let wm := if workMinutes < 1 then 1 else workMinutes
  let bm := if breakMinutes < 0 then 0 else breakMinutes
  { t with totalDuration := tm * 60, workInterval := wm * 60, breakInterval := bm * 60 }

/-- `FocusTimer::start` — fails unless Idle/Completed; otherwise resets the
counter, stamps both timestamps with `now` and enters Working. -/
def FocusTimer.start (now : Int) (t : FocusTimer) : FocusTimer × Bool :=
  if t.state ≠ TimerState.Idle ∧ t.state ≠ TimerState.Completed then
    (t, false)
  else
    ({ t with shouldStop := false, completedWorkIntervals := 0,
              sessionStart := now, intervalStart := now,
              state := TimerState.Working }, true)

/-- `FocusTimer::stop` — sets the stop flag and state Idle. -/
def FocusTimer.stop (t : FocusTimer) : FocusTimer :=
  { t with shouldStop := true, state := TimerState.Idle }

/-- `FocusTimer::pause` — no-op unless Working/Break; stores the remaining
time of the current interval (which the source does NOT clamp) and enters
Paused. -/
def FocusTimer.pause (now : Int) (t : FocusTimer) : FocusTimer :=
  if t.state ≠ TimerState.Working ∧ t.state ≠ TimerState.Break then
    t
  else
    let elapsed := now - t.intervalStart
    let intervalDuration :=
      if t.state = TimerState.Working then t.workInterval else t.breakInterval
    { t with pausedRemaining := intervalDuration - elapsed,
             state := TimerState.Paused }

/-- `FocusTimer::resume` — no-op unless Paused; picks the interval duration
and the state to resume into from the parity of `completedWorkIntervals`,
exactly as the source does. -/
def FocusTimer.resume (now : Int) (t : FocusTimer) : FocusTimer :=
  if t.state ≠ TimerState.Paused then
    t
  else
    let intervalDuration :=
      if t.completedWorkIntervals % 2 = 0 then t.workInterval else t.breakInterval
    { t with intervalStart := now - (intervalDuration - t.pausedRemaining),
             state := if t.completedWorkIntervals % 2 = 0 then TimerState.Working
                      else TimerState.Break }

/-- `FocusTimer::isRunning` — Working or Break. -/
def FocusTimer.isRunning (t : FocusTimer) : Bool :=
  t.state = TimerState.Working ∨ t.state = TimerState.Break

/-- `FocusTimer::getRemainingSeconds` — the stored paused-remaining when
Paused (returned raw), 0 when not running, else the live value clamped
with `std::max(0, ...)`. -/
def FocusTimer.getRemainingSeconds (now : Int) (t : FocusTimer) : Int :=
  if t.state = TimerState.Paused then
    t.pausedRemaining
  else if ¬ t.isRunning then
    0
  else
    let elapsed := now - t.intervalStart
    let intervalDuration :=
      if t.state = TimerState.Working then t.workInterval else t.breakInterval
    max 0 (intervalDuration - elapsed)

/-- `FocusTimer::getElapsedSeconds` — 0 when Idle, else `now - sessionStart`. -/
def FocusTimer.getElapsedSeconds (now : Int) (t : FocusTimer) : Int :=
  if t.state = TimerState.Idle then 0 else now - t.sessionStart

/-- State-transition part of one wake of `FocusTimer::timerLoop`: if not
stopped and not paused, and the current interval has elapsed, transition
Working→Break (incrementing the counter) or Break→Working, resetting
`intervalStart := now`.  Callback invocation is modelled separately in
`timerLoopBody`. -/
def FocusTimer.tick (now : Int) (t : FocusTimer) : FocusTimer :=
  if t.shouldStop then
    t
  else if t.state = TimerState.Paused then
    t
  else
    let intervalElapsed := now - t.intervalStart
    let currentInterval :=
      if t.state = TimerState.Working then t.workInterval else t.breakInterval
    if intervalElapsed ≥ currentInterval then
      if t.state = TimerState.Working then
        { t with completedWorkIntervals := t.completedWorkIntervals + 1,
                 state := TimerState.Break, intervalStart := now }
      else
        { t with state := TimerState.Working, intervalStart := now }
    else
      t

/-! ### Callback invocation and exception containment (FocusTimer.cpp) -/

/-- Model of a thrown C++ exception: either an object derived from
`std::exception` (carrying its message) or any other thrown value. -/
inductive CppException where
  | stdException (msg : String)
  | nonStdException
deriving DecidableEq, Repr

/-- A registered zero-argument callback (`FocusTimer::Callback`,
an optionally-empty `std::function`); invoking it either returns or
throws. -/
abbrev Callback := Option (Unit → Except CppException Unit)

/-- A registered tick callback (`FocusTimer::TickCallback`), taking the
remaining minutes and the current state. -/
abbrev TickCallback := Option (Int → TimerState → Except CppException Unit)

/-- `FocusTimer::invokeCallback` — invokes the callback inside
`try { cb(); } catch (const std::exception& e) { FE_ERR(...); }`:
a thrown `std::exception` is caught and swallowed, anything else
propagates. -/
def invokeCallback (cb : Callback) : Except CppException Unit :=
  match cb with
  | none => Except.ok ()
  | some f =>
    match f () with
    | Except.ok _ => Except.ok ()
    | Except.error (CppException.stdException _) => Except.ok ()
    | Except.error CppException.nonStdException =>
        Except.error CppException.nonStdException

/-- One wake of the body of `FocusTimer::timerLoop` (lines 151-184 of
FocusTimer.cpp), including callback invocation.  The transition callbacks
are run through `invokeCallback` (inside `transitionToBreak` /
`transitionToWork`), but the tick callback is invoked directly —
`m_onTick(remaining / 60, m_state.load())` — with no surrounding
try/catch, so an exception it throws propagates out of the loop body. -/
def timerLoopBody (now : Int) (onWorkStart onBreakStart : Callback)
    (onTick : TickCallback) (t : FocusTimer) : Except CppException FocusTimer :=
  if t.shouldStop then
    Except.ok t
  else if t.state = TimerState.Paused then
    Except.ok t
  else
    let afterTransition : Except CppException FocusTimer :=
      let intervalElapsed := now - t.intervalStart
      let currentInterval :=
        if t.state = TimerState.Working then t.workInterval else t.breakInterval
      if intervalElapsed ≥ currentInterval then
        if t.state = TimerState.Working then
          let t2 := { t with completedWorkIntervals := t.completedWorkIntervals + 1,
                             state := TimerState.Break, intervalStart := now }
          match invokeCallback onBreakStart with
          | Except.ok _ => Except.ok t2
          | Except.error e => Except.error e
        else
          let t2 := { t with state := TimerState.Working, intervalStart := now }
          match invokeCallback onWorkStart with
          | Except.ok _ => Except.ok t2
          | Except.error e => Except.error e
      else
        Except.ok t
    match afterTransition with
    | Except.error e => Except.error e
    | Except.ok t2 =>
      match onTick with
      | none => Except.ok t2
      | some f =>
        match f (FocusTimer.getRemainingSeconds now t2 / 60) t2.state with
        | Except.ok _ => Except.ok t2
        | Except.error e => Except.error e

/-! ### WorkspaceEnforcer (WorkspaceEnforcer.cpp / .hpp) -/

/-- State of a `WorkspaceEnforcer` object.  The C++ `std::set` members are
modelled as `Finset`; defaults mirror the member initializers in
WorkspaceEnforcer.hpp. -/
structure WorkspaceEnforcer where
  allowedWorkspaces : Finset Int := ∅
  exceptionClasses : Finset String := ∅
  lastValidWorkspace : Int := 1
  floatingExempt : Bool := true
  enforceDuringBreak : Bool := false
deriving DecidableEq

/-- The process-wide atomics read by `shouldBlockSwitch`
(`g_fe_is_session_active`, `g_fe_is_break_time` in globals.hpp). -/
structure FeGlobals where
  isSessionActive : Bool
  isBreakTime : Bool
deriving DecidableEq, Repr

/-- `WorkspaceEnforcer::setAllowedWorkspaces` — `clear()` then
`insert(begin, end)`. -/
def WorkspaceEnforcer.setAllowedWorkspaces (ids : List Int)
    (e : WorkspaceEnforcer) : WorkspaceEnforcer :=
  { e with allowedWorkspaces := ids.foldl (fun s i => insert i s) ∅ }

/-- `WorkspaceEnforcer::addAllowedWorkspace`. -/
def WorkspaceEnforcer.addAllowedWorkspace (id : Int)
    (e : WorkspaceEnforcer) : WorkspaceEnforcer :=
  { e with allowedWorkspaces := insert id e.allowedWorkspaces }

/-- `WorkspaceEnforcer::removeAllowedWorkspace`. -/
def WorkspaceEnforcer.removeAllowedWorkspace (id : Int)
    (e : WorkspaceEnforcer) : WorkspaceEnforcer :=
  { e with allowedWorkspaces := e.allowedWorkspaces.erase id }

/-- `WorkspaceEnforcer::clearAllowedWorkspaces`. -/
def WorkspaceEnforcer.clearAllowedWorkspaces
    (e : WorkspaceEnforcer) : WorkspaceEnforcer :=
  { e with allowedWorkspaces := ∅ }

/-- `WorkspaceEnforcer::isWorkspaceAllowed` — negative (special) ids are
always allowed, otherwise membership in the allowed set. -/
def WorkspaceEnforcer.isWorkspaceAllowed (e : WorkspaceEnforcer)
    (workspaceId : Int) : Bool :=
  if workspaceId < 0 then true
  else decide (workspaceId ∈ e.allowedWorkspaces)

/-- `WorkspaceEnforcer::setLastValidWorkspace`. -/
def WorkspaceEnforcer.setLastValidWorkspace (id : Int)
    (e : WorkspaceEnforcer) : WorkspaceEnforcer :=
  { e with lastValidWorkspace := id }

/-- `WorkspaceEnforcer::shouldBlockSwitch` — the enforcement decision
point.  It is a `const` method that only reads the two global atomics and
the enforcer's own fields; accordingly the embedding gives it the pure
type `... → Bool` (no updated state is produced). -/
def WorkspaceEnforcer.shouldBlockSwitch (e : WorkspaceEnforcer)
    (g : FeGlobals) (targetWorkspaceId : Int) : Bool :=
  if !g.isSessionActive then
    false
  else if g.isBreakTime && !e.enforceDuringBreak then
    false
  else if e.isWorkspaceAllowed targetWorkspaceId then
    false
  else
    true

/-- A mutation command on the allowed-workspace set, covering the four
mutators of WorkspaceEnforcer.cpp. -/
inductive AclCmd where
  | setAll (ids : List Int)
  | add (id : Int)
  | remove (id : Int)
  | clear
deriving DecidableEq, Repr

/-- Apply one ACL mutation command. -/
def applyAclCmd (e : WorkspaceEnforcer) : AclCmd → WorkspaceEnforcer
  | AclCmd.setAll ids => e.setAllowedWorkspaces ids
  | AclCmd.add id => e.addAllowedWorkspace id
  | AclCmd.remove id => e.removeAllowedWorkspace id
  | AclCmd.clear => e.clearAllowedWorkspaces

/-- Apply a sequence of ACL mutation commands. -/
def applyAclCmds (e : WorkspaceEnforcer) (cs : List AclCmd) : WorkspaceEnforcer :=
  cs.foldl applyAclCmd e

/-! ### LastValidWorkspace bookkeeping (eventhooks.cpp, dispatchers.cpp) -/

/-- The enforcer together with the session/break globals it reads. -/
structure FocusSys where
  enf : WorkspaceEnforcer
  g : FeGlobals
deriving DecidableEq

/-- The events that touch the enforcer or the globals:

* `startSession ws currentWs` — `dispatch_startSession` (dispatchers.cpp):
  early-returns if a session is already active or the parsed workspace
  list is empty; otherwise replaces the allowed set, records the current
  workspace (when the focus state yields one) as last-valid, and then
  activates the session (the work-start callback clears the break flag).
* `switchAttempt target` — `hkChangeworkspace` (eventhooks.cpp) with a
  successfully parsed target: forwards without bookkeeping when no session
  is active; when blocked it returns early (shake, no store); when allowed
  it calls the original and stores the target as last-valid.
* `workspaceNotify ws` — `onWorkspaceChange` (eventhooks.cpp): stores `ws`
  as last-valid only when `isWorkspaceAllowed ws`.
* `stopSession` — clears the session/break flags (dispatchers.cpp).
* `workStartCb` / `breakStartCb` — the timer callbacks toggling the break
  flag (dispatch_startSession lambdas).
* `addWs` / `removeWs` / `setEnforceBreak` — ACL mutations. -/
inductive SysEvent where
  | startSession (ws : List Int) (currentWs : Option Int)
  | switchAttempt (target : Int)
  | workspaceNotify (ws : Int)
  | stopSession
  | workStartCb
  | breakStartCb
  | addWs (id : Int)
  | removeWs (id : Int)
  | setEnforceBreak (b : Bool)
deriving DecidableEq, Repr

/-- One step of the system, paired with the list of
`setLastValidWorkspace` stores the step performs.  Each store is recorded
together with the system state at the moment the store happens (for
`startSession` that is after the allowed set was replaced but before the
session-active flag is raised, matching the statement order in
`dispatch_startSession`). -/
def sysStep (s : FocusSys) : SysEvent → FocusSys × List (FocusSys × Int)
  | SysEvent.startSession ws currentWs =>
    if s.g.isSessionActive then (s, [])
    else if ws.isEmpty then (s, [])
    else
      let s1 : FocusSys := { s with enf := s.enf.setAllowedWorkspaces ws }
      match currentWs with
      | none =>
        ({ s1 with g := { isSessionActive := true, isBreakTime := false } }, [])
      | some cw =>
        let s2 : FocusSys := { s1 with enf := s1.enf.setLastValidWorkspace cw }
        ({ s2 with g := { isSessionActive := true, isBreakTime := false } },
         [(s1, cw)])
  | SysEvent.switchAttempt target =>
    if !s.g.isSessionActive then (s, [])
    else if s.enf.shouldBlockSwitch s.g target then (s, [])
    else ({ s with enf := s.enf.setLastValidWorkspace target }, [(s, target)])
  | SysEvent.workspaceNotify ws =>
    if s.enf.isWorkspaceAllowed ws then
      ({ s with enf := s.enf.setLastValidWorkspace ws }, [(s, ws)])
    else (s, [])
  | SysEvent.stopSession =>
    ({ s with g := { isSessionActive := false, isBreakTime := false } }, [])
  | SysEvent.workStartCb =>
    ({ s with g := { s.g with isBreakTime := false } }, [])
  | SysEvent.breakStartCb =>
    ({ s with g := { s.g with isBreakTime := true } }, [])
  | SysEvent.addWs id =>
    ({ s with enf := s.enf.addAllowedWorkspace id }, [])
  | SysEvent.removeWs id =>
    ({ s with enf := s.enf.removeAllowedWorkspace id }, [])
  | SysEvent.setEnforceBreak b =>
    ({ s with enf := { s.enf with enforceDuringBreak := b } }, [])

/-! ### WindowShake (WindowShake.cpp / .hpp) -/

/-- A window position (`Vector2D`).  The claims proved about the shake
animation do not depend on the numeric value of the sinusoidal offset, so
coordinates are modelled as integers and the offset is kept abstract. -/
structure Vector2D where
  x : Int
  y : Int
deriving DecidableEq, Repr

/-- The frame loop of `WindowShake::performShake`, as the list of positions
written to the window, indexed by frame number `i`:

* `offset i` — the value `m_intensity * sin(phase) * decay` at frame `i`
  (abstract; the claims hold for every offset sequence);
* `cancelFlag i` — whether `m_shouldStop` is observed true at the loop
  check of frame `i` (covering both the `while` condition and the
  interruptible wait);
* `endFrame` — the first frame at which `now >= endTime`.

Each iteration writes `originalPos` with only `x` displaced; on loop exit
for any reason the final write restores `originalPos` exactly (the
unconditional restore after the loop).  The `fuel` argument bounds the
recursion; `performShake` supplies enough for the natural end. -/
def shakeLoopGo (offset : Nat → Int) (cancelFlag : Nat → Bool)
    (endFrame : Nat) (originalPos : Vector2D) : Nat → Nat → List Vector2D
  | 0, _ => [originalPos]
  | Nat.succ fuel, i =>
    if cancelFlag i then
      [originalPos]
    else if endFrame ≤ i then
      [originalPos]
    else
      { originalPos with x := originalPos.x + offset i } ::
        shakeLoopGo offset cancelFlag endFrame originalPos fuel (i + 1)

/-- `WindowShake::performShake` — the sequence of positions written to the
window over the whole animation, ending with the restore. -/
def performShake (offset : Nat → Int) (cancelFlag : Nat → Bool)
    (endFrame : Nat) (originalPos : Vector2D) : List Vector2D :=
  shakeLoopGo offset cancelFlag endFrame originalPos (endFrame + 1) 0

/-- State of a `WindowShake` object (WindowShake.hpp member initializers).
Window handles are opaque; they are modelled as naturals. -/
structure WindowShake where
  isShaking : Bool := false
  shouldStop : Bool := false
  targetWindow : Option Nat := none
deriving DecidableEq, Repr

/-- A `WindowShake` object together with whether a shake thread is
currently in flight (spawned and not yet exited). -/
structure ShakeSys where
  shk : WindowShake := {}
  animRunning : Bool := false
deriving DecidableEq, Repr

/-- Lifecycle events of the shake animator:

* `trigger w` — `WindowShake::shakeWindow(pWindow)`; `w = none` is a null
  window (early return).
* `animFinish` — the spawned `shakeLoop` runs `performShake` to its end
  (natural completion) and clears `m_isShaking` / `m_targetWindow`.
* `stopShake` — `WindowShake::stopShake()`: sets `m_shouldStop`, wakes the
  loop and joins the thread (after which the loop has finished and cleared
  its flags). -/
inductive ShakeEvent where
  | trigger (w : Option Nat)
  | animFinish
  | stopShake
deriving DecidableEq, Repr

/-- One step of the shake animator lifecycle.  In `shakeWindow` the
`m_isShaking.exchange(true)` makes a trigger during an in-flight animation
return immediately without touching any state. -/
def shakeStep (s : ShakeSys) : ShakeEvent → ShakeSys
  | ShakeEvent.trigger w =>
    match w with
    | none => s
    | some win =>
      if s.shk.isShaking then s
      else { shk := { isShaking := true, shouldStop := false,
                      targetWindow := some win },
             animRunning := true }
  | ShakeEvent.animFinish =>
    if s.animRunning then
      { shk := { s.shk with isShaking := false, targetWindow := none },
        animRunning := false }
    else s
  | ShakeEvent.stopShake =>
    if s.animRunning then
      { shk := { isShaking := false, shouldStop := true, targetWindow := none },
        animRunning := false }
    else
      { shk := { s.shk with shouldStop := true }, animRunning := false }

/-- Run the shake animator from its initial state through a list of
events. -/
def shakeRun (es : List ShakeEvent) : ShakeSys :=
  es.foldl shakeStep {}

/-! ### ExitChallenge (ExitChallenge.cpp / .hpp) -/

/-- Challenge types, from the `ChallengeType` enum in ExitChallenge.hpp. -/
inductive ChallengeType where
  | None
  | TypePhrase
  | MathProblem
  | Countdown
deriving DecidableEq, Repr

/-- Whitespace in the sense of C `isspace` (the characters stripped by
`ExitChallenge::normalizeAnswer`). -/
def isCppSpace (c : Char) : Bool :=
  c = ' ' || c = '\t' || c = '\n' || c = '\x0b' || c = '\x0c' || c = '\r'

/-- Lower-casing in the sense of C `tolower` on ASCII. -/
def toLowerCpp (c : Char) : Char :=
  if 'A' ≤ c ∧ c ≤ 'Z' then Char.ofNat (c.toNat + 32) else c

/-- The trailing trim in `ExitChallenge::normalizeAnswer`
(`find_first_not_of(' ')` / `find_last_not_of(' ')` / `substr`); after the
whitespace-stripping pass it only maps an all-space result to the empty
string, but is modelled faithfully. -/
def trimSpaces (s : List Char) : List Char :=
  ((s.dropWhile fun c => c = ' ').reverse.dropWhile fun c => c = ' ').reverse

/-- `ExitChallenge::normalizeAnswer` — drop every whitespace character,
lower-case the rest, then trim spaces. -/
def normalizeAnswer (input : String) : String :=
  String.mk (trimSpaces ((input.toList.filter fun c => !isCppSpace c).map toLowerCpp))

/-- State of an `ExitChallenge` object (member initializers from
ExitChallenge.hpp). -/
structure ExitChallenge where
  type : ChallengeType := ChallengeType.None
  customPhrase : String := "I want to stop focusing"
  challengeActive : Bool := false
  expectedAnswer : String := ""
  currentPrompt : String := ""
  remainingConfirms : Int := 3
deriving DecidableEq, Repr

/-- `ExitChallenge::configure` — sets the type, and the phrase when
non-empty. -/
def ExitChallenge.configure (type : ChallengeType) (customPhrase : String)
    (c : ExitChallenge) : ExitChallenge :=
  let c1 := { c with type := type }
  if customPhrase ≠ "" then { c1 with customPhrase := customPhrase } else c1

/-- The draws the math problem takes from `m_rng`:
`numA, numB ∈ [10, 50]` and `op ∈ [0, 2]`. -/
structure RngDraws where
  numA : Int
  numB : Int
  op : Int
deriving DecidableEq, Repr

/-- `ExitChallenge::generateMathProblem` — with the random draws made
explicit.  Subtraction swaps the operands so the result is non-negative;
multiplication remaps both operands into `[2, 14]` via `% 13 + 2`. -/
def ExitChallenge.generateMathProblem (r : RngDraws)
    (c : ExitChallenge) : ExitChallenge × String :=
  let a := r.numA
  let b := r.numB
  let res :=
    if r.op = 0 then (a, b, a + b, "+")
    else if r.op = 1 then
      if a < b then (b, a, b - a, "-") else (a, b, a - b, "-")
    else if r.op = 2 then
      (a % 13 + 2, b % 13 + 2, (a % 13 + 2) * (b % 13 + 2), "×")
    else (a, b, a + b, "+")
  match res with
  | (a2, b2, result, opStr) =>
    ({ c with expectedAnswer := toString result },
     "Solve to stop: " ++ toString a2 ++ " " ++ opStr ++ " " ++ toString b2 ++
       " = ?\nUse: hyfocus:confirm <answer>")

/-- `ExitChallenge::initiateChallenge` — activates the challenge, resets
the countdown counter to 3, then branches on the type (None immediately
deactivates again). -/
def ExitChallenge.initiateChallenge (r : RngDraws)
    (c : ExitChallenge) : ExitChallenge × String :=
  let c1 := { c with challengeActive := true, remainingConfirms := 3 }
  match c1.type with
  | ChallengeType.None => ({ c1 with challengeActive := false }, "")
  | ChallengeType.TypePhrase =>
    let c2 := { c1 with
      expectedAnswer := normalizeAnswer c1.customPhrase,
      currentPrompt := "To stop the session, type: \"" ++ c1.customPhrase ++
        "\"\nUse: hyfocus:confirm <your answer>" }
    (c2, c2.currentPrompt)
  | ChallengeType.MathProblem =>
    match c1.generateMathProblem r with
    | (c2, prompt) =>
      let c3 := { c2 with currentPrompt := prompt }
      (c3, c3.currentPrompt)
  | ChallengeType.Countdown =>
    let c2 := { c1 with
      currentPrompt := "Are you SURE you want to stop? (" ++
        toString c1.remainingConfirms ++ " confirmations needed)\nType: hyfocus:confirm yes" }
    (c2, c2.currentPrompt)

/-- `ExitChallenge::validateAnswer` — trivially true with no active
challenge; otherwise normalizes the answer and branches on the type.  For
Countdown, "yes"/"y" decrements the counter, passing (and deactivating)
when it reaches 0; any other answer changes nothing and fails. -/
def ExitChallenge.validateAnswer (answer : String)
    (c : ExitChallenge) : ExitChallenge × Bool :=
  if !c.challengeActive then (c, true)
  else
    let normalizedAnswer := normalizeAnswer answer
    match c.type with
    | ChallengeType.None => ({ c with challengeActive := false }, true)
    | ChallengeType.TypePhrase =>
      if normalizedAnswer = c.expectedAnswer then
        ({ c with challengeActive := false }, true)
      else (c, false)
    | ChallengeType.MathProblem =>
      if normalizedAnswer = c.expectedAnswer then
        ({ c with challengeActive := false }, true)
      else (c, false)
    | ChallengeType.Countdown =>
      if normalizedAnswer = "yes" ∨ normalizedAnswer = "y" then
        let newRemaining := c.remainingConfirms - 1
        if newRemaining ≤ 0 then
          ({ c with remainingConfirms := newRemaining,
                    challengeActive := false }, true)
        else
          ({ c with remainingConfirms := newRemaining,
                    currentPrompt := "Still sure? (" ++ toString newRemaining ++
                      " more confirmations needed)\nType: hyfocus:confirm yes" },
           false)
      else (c, false)

/-- `ExitChallenge::cancelChallenge`. -/
def ExitChallenge.cancelChallenge (c : ExitChallenge) : ExitChallenge :=
  { c with challengeActive := false, remainingConfirms := 3 }

/-! ### Helper lemmas -/

/-- Membership after the `clear` + range-`insert` of
`setAllowedWorkspaces`. -/
theorem mem_foldl_insert (ids : List Int) (s : Finset Int) (w : Int) :
    w ∈ ids.foldl (fun acc i => insert i acc) s ↔ w ∈ ids ∨ w ∈ s := by
  induction ids generalizing s with
  | nil => simp
  | cons a l ih =>
    simp only [List.foldl_cons, ih, Finset.mem_insert, List.mem_cons]
    tauto

/-- The decision point never blocks while no session is active. -/
theorem shouldBlockSwitch_of_inactive (e : WorkspaceEnforcer) (g : FeGlobals)
    (w : Int) (h : g.isSessionActive = false) :
    e.shouldBlockSwitch g w = false := by
  simp [WorkspaceEnforcer.shouldBlockSwitch, h]

/-- The decision point never blocks an allowed workspace. -/
theorem shouldBlockSwitch_of_allowed (e : WorkspaceEnforcer) (g : FeGlobals)
    (w : Int) (h : e.isWorkspaceAllowed w = true) :
    e.shouldBlockSwitch g w = false := by
  simp [WorkspaceEnforcer.shouldBlockSwitch, h]

/-- Every run of the shake frame loop is a list of displaced writes that
keep `y` fixed, followed by the restoring write of the original
position. -/
theorem shakeLoopGo_writes (offset : Nat → Int) (cancelFlag : Nat → Bool)
    (endFrame : Nat) (orig : Vector2D) :
    ∀ fuel i, ∃ l, shakeLoopGo offset cancelFlag endFrame orig fuel i = l ++ [orig] ∧
      ∀ p ∈ l, p.y = orig.y := by
  intro fuel
  induction fuel with
  | zero => exact fun i => ⟨[], rfl, by simp⟩
  | succ n ih =>
    intro i
    by_cases hc : cancelFlag i
    · exact ⟨[], by simp [shakeLoopGo, hc], by simp⟩
    · by_cases he : endFrame ≤ i
      · exact ⟨[], by simp [shakeLoopGo, hc, he], by simp⟩
      · obtain ⟨l, hl, hy⟩ := ih (i + 1)
        refine ⟨{ orig with x := orig.x + offset i } :: l, ?_, ?_⟩
        · simp [shakeLoopGo, hc, he, hl]
        · intro p hp
          rcases List.mem_cons.mp hp with h | h
          · subst h; rfl
          · exact hy p h

/-- One shake lifecycle step preserves the agreement between the
`m_isShaking` flag and an animation actually being in flight. -/
theorem shakeStep_preserves_inv (s : ShakeSys) (e : ShakeEvent)
    (h : s.shk.isShaking = s.animRunning) :
    (shakeStep s e).shk.isShaking = (shakeStep s e).animRunning := by
  cases e with
  | trigger w =>
    cases w with
    | none => exact h
    | some win =>
      by_cases hs : s.shk.isShaking
      · simpa [shakeStep, hs] using h
      · simp [shakeStep, hs]
  | animFinish =>
    by_cases hr : s.animRunning
    · simp [shakeStep, hr]
    · simpa [shakeStep, hr] using h
  | stopShake =>
    by_cases hr : s.animRunning
    · simp [shakeStep, hr]
    · simp only [Bool.not_eq_true] at hr
      simp [shakeStep, hr, h ▸ hr]

/-- The flag/in-flight agreement holds along every event sequence. -/
theorem foldl_shakeStep_inv (es : List ShakeEvent) (s : ShakeSys)
    (h : s.shk.isShaking = s.animRunning) :
    (es.foldl shakeStep s).shk.isShaking = (es.foldl shakeStep s).animRunning := by
  induction es generalizing s with
  | nil => exact h
  | cons e l ih => exact ih _ (shakeStep_preserves_inv s e h)

/-! ### Theorems -/

/-- Claim C1 (code-bug evidence): a work-start/break-start callback that
throws a `std::exception` is contained by `invokeCallback`, but the tick
callback is invoked by the timer loop with no try/catch at all, so the
very same exception thrown from the tick callback propagates out of the
loop body — contradicting the claim that the tick callback enjoys the
same containment.  The state used is the timer immediately after
`configure(30,1,1); start()` at time 0, woken at time 5 (no transition
due). -/
theorem onTick_exception_escapes_timerLoop :
    invokeCallback (some fun _ => Except.error (CppException.stdException "boom"))
      = Except.ok () ∧
    timerLoopBody 5 none none
        (some fun _ _ => Except.error (CppException.stdException "boom"))
        (FocusTimer.start 0 (FocusTimer.configure 30 1 1 {})).1
      = Except.error (CppException.stdException "boom") :=
  ⟨rfl, rfl⟩

/-- Claim C2 (code-bug evidence): with work = break = 1 minute, after the
first work interval (tick at 60s: Working→Break, counter becomes 1) and
the first break (tick at 120s: Break→Working, counter stays 1), the timer
is Working in its second work interval with
`completedWorkIntervals = 1`.  Pausing at 130s and resuming at 131s puts
the timer into Break — not the Working state that was active at the
pause — because `resume` derives the state from the parity of a counter
that is only incremented on Working→Break transitions. -/
theorem pause_resume_second_work_interval_resumes_to_Break :
    (FocusTimer.tick 120 (FocusTimer.tick 60
        (FocusTimer.start 0 (FocusTimer.configure 30 1 1 {})).1)).state
      = TimerState.Working ∧
    (FocusTimer.tick 120 (FocusTimer.tick 60
        (FocusTimer.start 0 (FocusTimer.configure 30 1 1 {})).1)).completedWorkIntervals
      = 1 ∧
    (FocusTimer.pause 130 (FocusTimer.tick 120 (FocusTimer.tick 60
        (FocusTimer.start 0 (FocusTimer.configure 30 1 1 {})).1))).state
      = TimerState.Paused ∧
    (FocusTimer.resume 131 (FocusTimer.pause 130 (FocusTimer.tick 120
        (FocusTimer.tick 60
          (FocusTimer.start 0 (FocusTimer.configure 30 1 1 {})).1)))).state
      = TimerState.Break := by
  decide

/-- Claim C3 (counterexample): starting a session with a 1-minute work
interval at time 0 and pausing at time 65 — after the interval's 60
seconds have elapsed but before the loop (which wakes only about once per
second, and may be delayed arbitrarily) performs the transition — stores
`pausedRemaining = -5`; `getRemainingSeconds` then returns that stored
value raw, i.e. a negative number, because the `std::max(0, ...)` clamp
is applied only in the non-Paused live branch. -/
theorem getRemainingSeconds_negative_when_paused_late :
    (FocusTimer.pause 65
        (FocusTimer.start 0 (FocusTimer.configure 30 1 1 {})).1).state
      = TimerState.Paused ∧
    FocusTimer.getRemainingSeconds 70
        (FocusTimer.pause 65
          (FocusTimer.start 0 (FocusTimer.configure 30 1 1 {})).1)
      = -5 ∧
    FocusTimer.getRemainingSeconds 70
        (FocusTimer.pause 65
          (FocusTimer.start 0 (FocusTimer.configure 30 1 1 {})).1)
      < 0 := by
  decide

/-- Claim C3 (amended): `getRemainingSeconds` returns the stored
paused-remaining unclamped when Paused (so it is negative exactly when
pause stored a negative quantity); in Working/Break it returns the live
value clamped to 0, and in Idle/Completed it returns 0 — hence the result
is non-negative in every state except possibly Paused. -/
theorem getRemainingSeconds_cases (t : FocusTimer) (now : Int) :
    (t.state = TimerState.Paused →
      FocusTimer.getRemainingSeconds now t = t.pausedRemaining) ∧
    (t.state = TimerState.Working →
      FocusTimer.getRemainingSeconds now t
        = max 0 (t.workInterval - (now - t.intervalStart))) ∧
    (t.state = TimerState.Break →
      FocusTimer.getRemainingSeconds now t
        = max 0 (t.breakInterval - (now - t.intervalStart))) ∧
    ((t.state = TimerState.Idle ∨ t.state = TimerState.Completed) →
      FocusTimer.getRemainingSeconds now t = 0) ∧
    (t.state ≠ TimerState.Paused → 0 ≤ FocusTimer.getRemainingSeconds now t) := by
  cases h : t.state <;>
    simp [FocusTimer.getRemainingSeconds, FocusTimer.isRunning, h]

/-- Claim C3 witness: the amended statement evaluated at concrete timers,
one per case. -/
theorem getRemainingSeconds_cases_witness :
    FocusTimer.getRemainingSeconds 0
        { state := TimerState.Paused, pausedRemaining := 42 } = 42 ∧
    FocusTimer.getRemainingSeconds 100
        { state := TimerState.Working, workInterval := 60, intervalStart := 90 }
      = max 0 (60 - (100 - 90)) ∧
    FocusTimer.getRemainingSeconds 100
        { state := TimerState.Break, breakInterval := 30, intervalStart := 90 }
      = max 0 (30 - (100 - 90)) ∧
    FocusTimer.getRemainingSeconds 5 { state := TimerState.Idle } = 0 ∧
    0 ≤ FocusTimer.getRemainingSeconds 100
        { state := TimerState.Working, workInterval := 60, intervalStart := 0 } :=
  ⟨(getRemainingSeconds_cases _ 0).1 rfl,
   (getRemainingSeconds_cases _ 100).2.1 rfl,
   (getRemainingSeconds_cases _ 100).2.2.1 rfl,
   (getRemainingSeconds_cases _ 5).2.2.2.1 (Or.inl rfl),
   (getRemainingSeconds_cases _ 100).2.2.2.2 (by decide)⟩

/-- Claim C10: elapsed time is wall-clock time since session start and is
not frozen by pausing — `pause` leaves `sessionStart` untouched and does
not change the value `getElapsedSeconds` reads at any instant; for every
state the getter returns 0 when Idle and `now - sessionStart` otherwise,
a quantity that keeps growing as real time advances. -/
theorem getElapsedSeconds_wallclock_spec (t : FocusTimer) (tp now : Int) (d : Nat) :
    (FocusTimer.pause tp t).sessionStart = t.sessionStart ∧
    FocusTimer.getElapsedSeconds now (FocusTimer.pause tp t)
      = FocusTimer.getElapsedSeconds now t ∧
    FocusTimer.getElapsedSeconds now t
      = (if t.state = TimerState.Idle then 0 else now - t.sessionStart) ∧
    FocusTimer.getElapsedSeconds now t
      ≤ FocusTimer.getElapsedSeconds (now + (d : Int)) t := by
  cases h : t.state <;>
    simp [FocusTimer.pause, FocusTimer.getElapsedSeconds, h]

/-- Claim C4: for every target workspace, allowed set, and combination of
the session-active, break-time and enforceDuringBreak flags,
`shouldBlockSwitch` blocks exactly when a session is active, break-time
leniency does not apply, and the target is not allowed — equivalently, it
returns false when no session is active, false during an unenforced
break, false for an allowed workspace, and true otherwise.  The embedding
types the call as `WorkspaceEnforcer → FeGlobals → Int → Bool`, returning
no updated state, mirroring the `const` method that only reads the
atomics and its own fields. -/
theorem shouldBlockSwitch_decision_spec (e : WorkspaceEnforcer)
    (g : FeGlobals) (w : Int) :
    e.shouldBlockSwitch g w = true ↔
      g.isSessionActive = true ∧
      (g.isBreakTime = false ∨ e.enforceDuringBreak = true) ∧
      e.isWorkspaceAllowed w = false := by
  rcases g with ⟨sa, bt⟩
  cases sa <;> cases bt <;>
    cases hedb : e.enforceDuringBreak <;>
    cases hall : e.isWorkspaceAllowed w <;>
    simp [WorkspaceEnforcer.shouldBlockSwitch, hedb, hall]

/-- Claim C5: for every allowed set built by any sequence of
`setAllowedWorkspaces` / `addAllowedWorkspace` / `removeAllowedWorkspace`
/ `clearAllowedWorkspaces` calls and every workspace id `w`,
`isWorkspaceAllowed w` holds iff `w < 0` or `w` is a member of the
configured set; in particular after a trailing `setAllowedWorkspaces ids`
the membership is exactly membership in `ids`. -/
theorem isWorkspaceAllowed_iff_spec (e : WorkspaceEnforcer)
    (cs : List AclCmd) (ids : List Int) (w : Int) :
    ((applyAclCmds e cs).isWorkspaceAllowed w = true ↔
      w < 0 ∨ w ∈ (applyAclCmds e cs).allowedWorkspaces) ∧
    ((applyAclCmds e (cs ++ [AclCmd.setAll ids])).isWorkspaceAllowed w = true ↔
      w < 0 ∨ w ∈ ids) := by
  constructor
  · by_cases h : w < 0 <;> simp [WorkspaceEnforcer.isWorkspaceAllowed, h]
  · have hstep : applyAclCmds e (cs ++ [AclCmd.setAll ids])
        = (applyAclCmds e cs).setAllowedWorkspaces ids := by
      simp [applyAclCmds, applyAclCmd]
    rw [hstep]
    by_cases h : w < 0 <;>
      simp [WorkspaceEnforcer.isWorkspaceAllowed,
        WorkspaceEnforcer.setAllowedWorkspaces, h, mem_foldl_insert]

/-- Claim C6: every `setLastValidWorkspace` store performed by any system
event happens in a state where the stored workspace was not blocked — the
blocked branch of `hkChangeworkspace` stores nothing, the allowed branch
stores a target the decision point just cleared, `onWorkspaceChange`
stores only workspaces passing `isWorkspaceAllowed`, and the session-start
store happens while no session is active yet (when every switch is
permitted); moreover `lastValidWorkspace` changes only to such stored
values, so it never reflects a blocked switch. -/
theorem lastValidWorkspace_stores_never_blocked (s : FocusSys) (e : SysEvent) :
    ((sysStep s e).2.all fun p => !(p.1.enf.shouldBlockSwitch p.1.g p.2)) = true ∧
    (((sysStep s e).1.enf.lastValidWorkspace == s.enf.lastValidWorkspace) ||
      (sysStep s e).2.any fun p =>
        p.2 == (sysStep s e).1.enf.lastValidWorkspace) = true := by
  cases e with
  | startSession ws cw =>
    by_cases hact : s.g.isSessionActive
    · simp [sysStep, hact]
    · simp only [Bool.not_eq_true] at hact
      by_cases hemp : ws.isEmpty
      · simp [sysStep, hact, hemp]
      · cases cw with
        | none =>
          simp [sysStep, hact, hemp, WorkspaceEnforcer.setAllowedWorkspaces]
        | some c =>
          simp [sysStep, hact, hemp, WorkspaceEnforcer.setAllowedWorkspaces,
            WorkspaceEnforcer.setLastValidWorkspace,
            shouldBlockSwitch_of_inactive _ _ _ hact]
  | switchAttempt target =>
    by_cases hact : s.g.isSessionActive
    · by_cases hblk : s.enf.shouldBlockSwitch s.g target
      · simp [sysStep, hact, hblk]
      · simp only [Bool.not_eq_true] at hblk
        simp [sysStep, hact, hblk, WorkspaceEnforcer.setLastValidWorkspace]
    · simp only [Bool.not_eq_true] at hact
      simp [sysStep, hact]
  | workspaceNotify ws =>
    by_cases hall : s.enf.isWorkspaceAllowed ws
    · simp [sysStep, hall, WorkspaceEnforcer.setLastValidWorkspace,
        shouldBlockSwitch_of_allowed _ _ _ hall]
    · simp [sysStep, hall]
  | stopSession => simp [sysStep]
  | workStartCb => simp [sysStep]
  | breakStartCb => simp [sysStep]
  | addWs id => simp [sysStep, WorkspaceEnforcer.addAllowedWorkspace]
  | removeWs id => simp [sysStep, WorkspaceEnforcer.removeAllowedWorkspace]
  | setEnforceBreak b => simp [sysStep]

/-- Claim C7: for every offset sequence, cancellation pattern and natural
end frame, every position the shake animation writes keeps the original
`y` coordinate (only `x` is displaced), and the last write — reached on
natural completion and on cancellation alike — restores the original
position exactly. -/
theorem performShake_y_fixed_and_restores (offset : Nat → Int)
    (cancelFlag : Nat → Bool) (endFrame : Nat) (orig : Vector2D) :
    ((performShake offset cancelFlag endFrame orig).all
        fun p => p.y == orig.y) = true ∧
    (performShake offset cancelFlag endFrame orig).getLast? = some orig := by
  obtain ⟨l, hl, hy⟩ :=
    shakeLoopGo_writes offset cancelFlag endFrame orig (endFrame + 1) 0
  unfold performShake
  rw [hl]
  refine ⟨?_, by simp⟩
  rw [List.all_eq_true]
  intro p hp
  rcases List.mem_append.mp hp with h | h
  · exact beq_iff_eq.mpr (hy p h)
  · simp only [List.mem_singleton] at h
    subst h
    exact beq_iff_eq.mpr rfl

/-- Claim C8: along every event sequence of the shake animator,
`isShaking` is true exactly while an animation is in flight, and a
`trigger` issued while `isShaking` is true changes no state and starts no
new animation (checked as a Boolean so the statement is hypothesis-free:
either the animator is idle, or the triggered step equals the unchanged
state). -/
theorem shake_coalesced_and_isShaking_tracks_inflight
    (es : List ShakeEvent) (w : Option Nat) :
    (shakeRun es).shk.isShaking = (shakeRun es).animRunning ∧
    ((!(shakeRun es).shk.isShaking) ||
      (shakeStep (shakeRun es) (ShakeEvent.trigger w) == shakeRun es)) = true := by
  refine ⟨foldl_shakeStep_inv es {} rfl, ?_⟩
  cases hsb : (shakeRun es).shk.isShaking
  · simp
  · cases w with
    | none => simp [shakeStep]
    | some win => simp [shakeStep, hsb]

/-- Claim C9: for the Countdown challenge, `initiateChallenge` activates
the challenge with 3 remaining confirmations; the concrete scenario of
three "yes" answers returns false (remaining 2), false (remaining 1),
then true with the challenge deactivated; and in general, from any active
Countdown state, an acknowledgment ("yes"/"y" after normalization)
decrements the counter — passing exactly when the counter was ≤ 1 and
staying active otherwise — while any other answer leaves the whole state
unchanged and returns false. -/
theorem countdown_challenge_spec :
    (let c0 := ExitChallenge.configure ChallengeType.Countdown "" {}
     let c1 := (c0.initiateChallenge { numA := 10, numB := 10, op := 0 }).1
     let v1 := c1.validateAnswer "yes"
     let v2 := v1.1.validateAnswer "yes"
     let v3 := v2.1.validateAnswer "yes"
     c1.challengeActive = true ∧ c1.remainingConfirms = 3 ∧
     v1.2 = false ∧ v1.1.remainingConfirms = 2 ∧ v1.1.challengeActive = true ∧
     v2.2 = false ∧ v2.1.remainingConfirms = 1 ∧ v2.1.challengeActive = true ∧
     v3.2 = true ∧ v3.1.remainingConfirms = 0 ∧ v3.1.challengeActive = false) ∧
    (∀ (c : ExitChallenge) (ans : String),
      c.type = ChallengeType.Countdown → c.challengeActive = true →
      (¬(normalizeAnswer ans = "yes" ∨ normalizeAnswer ans = "y") →
        c.validateAnswer ans = (c, false)) ∧
      ((normalizeAnswer ans = "yes" ∨ normalizeAnswer ans = "y") →
        (c.validateAnswer ans).1.remainingConfirms = c.remainingConfirms - 1 ∧
        ((c.validateAnswer ans).2 = true ↔ c.remainingConfirms ≤ 1) ∧
        (c.validateAnswer ans).1.challengeActive
          = decide (1 < c.remainingConfirms))) := by
  constructor
  · decide
  · intro c ans hty hact
    constructor
    · intro hno
      simp [ExitChallenge.validateAnswer, hact, hty, hno]
    · intro hyes
      by_cases hr : c.remainingConfirms - 1 ≤ 0
      · simp [ExitChallenge.validateAnswer, hact, hty, hyes, hr]
        omega
      · simp [ExitChallenge.validateAnswer, hact, hty, hyes, hr]
        omega

/-- Claim C9 witness: the general part evaluated at an active Countdown
state with a non-acknowledgment ("maybe") and with an acknowledgment
carrying case and whitespace noise (" YES "). -/
theorem countdown_challenge_spec_witness :
    (({ type := ChallengeType.Countdown, challengeActive := true } :
        ExitChallenge).validateAnswer "maybe"
      = (({ type := ChallengeType.Countdown, challengeActive := true } :
          ExitChallenge), false)) ∧
    (({ type := ChallengeType.Countdown, challengeActive := true } :
        ExitChallenge).validateAnswer " YES ").1.remainingConfirms = 2 :=
  ⟨(countdown_challenge_spec.2
      { type := ChallengeType.Countdown, challengeActive := true }
      "maybe" rfl rfl).1 (by decide),
   by
     have h := ((countdown_challenge_spec.2
       { type := ChallengeType.Countdown, challengeActive := true }
       " YES " rfl rfl).2 (by decide)).1
     simpa using h⟩

end HyFocus
